import Mathlib

/-!
Verification of the radiolib-persistence boot-cycle / join-retry examples.

Shallow embedding of the Arduino sketches:
  * `examples/LoRaWAN_ESP32/LoRaWAN_ESP32.ino`  (primary variant)
  * `examples/LoRaWAN_RP2040/LoRaWAN_RP2040.ino`
  * the ESP8266 variant (two sketch copies in the repository)

Machine integers are modelled as `Nat` with explicit `% 2^16` / `% 2^32`
where the C types (`uint16_t`, `uint32_t` / `unsigned long`) wrap.
RadioLib status codes (`int16_t state`) are modelled as `Int`; the only
operations the sketches perform on them are comparisons.

External calls (radio, store, RTC, sleep) are modelled by an environment
record giving the result of each call; one invocation of `setup()` becomes
a pure function from the retained-memory state, the durable store content
and the environment to a result state plus a trace of observable events.
-/

/-- Constant `RADIOLIB_ERR_NONE`: the RadioLib success status code. -/
def RADIOLIB_ERR_NONE : Int := 0

/-- Modelled from the spec: the external Radio Link status code for the
`no_downlink` uplink outcome (`RADIOLIB_LORAWAN_NO_DOWNLINK`).  The constant
lives in the RadioLib headers outside this repository; it is a fixed
negative code distinct from the success code 0, and no claim depends on its
exact numeric value. -/
def RADIOLIB_LORAWAN_NO_DOWNLINK : Int := -1101

/-- Modulus of `uint16_t`. -/
def U16 : Nat := 65536

/-- Modulus of `uint32_t` / `unsigned long` (32-bit platforms). -/
def U32 : Nat := 4294967296

/-- ESP32 line 127 (identically RP2040 line 130, ESP8266 lines 148/379):
`uint32_t sleepForSeconds = min((bootCountSinceUnsuccessfulJoin++ + 1UL) * 60UL, 3UL * 60UL);`
The value used is the pre-increment streak (C post-increment); the argument
`streak` here is that pre-increment value.  The arithmetic is `unsigned
long` (32-bit), hence the `% U32`. -/
def sleepForSeconds (streak : Nat) : Nat :=
  min ((streak + 1) * 60 % U32) (3 * 60)

/-- ESP32 line 59 / ESP8266 lines 67 and 295:
`seconds * 1000UL * 1000UL` computed in 32-bit unsigned arithmetic
(the argument `seconds` is a `uint32_t`). -/
def sleepMicros (seconds : Nat) : Nat :=
  seconds % U32 * 1000 % U32 * 1000 % U32

/-- Observable events of one `setup()` invocation (ESP32 variant). -/
inductive Ev where
  /-- Call `debug(cond, msg, state, false)` printed a non-fatal error message. -/
  | report (msg : String)
  /-- Call `node.beginOTAA(joinEUI, devEUI, nwkKey, appKey, true)` returned `result`. -/
  | joinCall (result : Int)
  /-- Call `store.putBytes("nonces", buffer, ...)` wrote `b` to the durable store. -/
  | nonceStoreWrite (b : List Nat)
  /-- Guard `delay(1000)` after a successful join. -/
  | guardDelay (ms : Nat)
  /-- Call `node.sendReceive(...)` returned `result`. -/
  | uplinkCall (result : Int)
  /-- Copy `memcpy(LWsession, node.getBufferSession(), ...)`: session saved to retained memory. -/
  | sessionSave (b : List Nat)
  /-- Call `esp_sleep_enable_timer_wakeup(us)` with the computed microsecond argument. -/
  | sleepTimer (us : Nat)
  /-- Call `esp_deep_sleep_start()` succeeded (device powers down; terminal). -/
  | deepSleep
  /-- Defensive `delay(5UL * 60UL * 1000UL)` after `esp_deep_sleep_start` returned. -/
  | failDelay (ms : Nat)
  /-- Call `ESP.restart()`. -/
  | restart
  /-- ESP8266 `ESP.rtcUserMemoryWrite(addr, &v, ...)` of a counter value. -/
  | rtcWrite (addr : Nat) (v : Nat)
  /-- ESP8266 `ESP.deepSleep(us)` (combined program-and-sleep call). -/
  | espDeepSleep (us : Nat)
  deriving DecidableEq, Repr

/-- Does the event write the durable nonce store? -/
def isNW : Ev → Bool
  | .nonceStoreWrite _ => true
  | _ => false

/-- Is the event a fresh-join call? -/
def isJoinEv : Ev → Bool
  | .joinCall _ => true
  | _ => false

/-- How a `gotoSleep` call ended.  `gotoSleep` never returns to its caller:
either the deep sleep starts (device restarts on wake) or, after the
failure delay, `ESP.restart()` runs.  `seconds` is the requested duration. -/
inductive SleepExit where
  | slept (seconds : Nat)
  | restarted (seconds : Nat)
  deriving DecidableEq, Repr

/-- ESP32 `gotoSleep` (lines 58-70): program the timer with
`seconds * 1000UL * 1000UL` microseconds; start deep sleep; if the deep
sleep call returns, delay five minutes and restart.  `sleepOk` tells
whether `esp_deep_sleep_start()` actually powers down. -/
def gotoSleepE (sleepOk : Bool) (seconds : Nat) : List Ev × SleepExit :=
  if sleepOk then
    ([.sleepTimer (sleepMicros seconds), .deepSleep], .slept seconds)
  else
    ([.sleepTimer (sleepMicros seconds), .failDelay (5 * 60 * 1000), .restart],
      .restarted seconds)

/-- Retained (RTC) memory of the ESP32 sketch: `bootCount` (`uint16_t`,
initial value 1), `bootCountSinceUnsuccessfulJoin` (`uint16_t`, initial
value 0) and the `LWsession` buffer. -/
structure Retained where
  bootCount : Nat
  streak : Nat
  session : List Nat
  deriving DecidableEq, Repr

/-- Retained memory right after a full power loss (the C initializers
`bootCount = 1`, `bootCountSinceUnsuccessfulJoin = 0`; the session buffer
content is opaque and irrelevant before its first save). -/
def coldRetained : Retained := ⟨1, 0, []⟩

/-- Results of the external calls made during one boot.  `joinResult k` is
what the `k`-th in-process fresh-join `beginOTAA(..., true)` call of this
invocation returns; `uplinkIntervalSeconds` models the `config.h`
application constant. -/
structure BootEnv where
  radioBeginResult : Int
  setBufferNoncesResult : Int
  setBufferSessionResult : Int
  beginOTAARestoreResult : Int
  joinResult : Nat → Int
  nodeNonces : List Nat
  sendReceiveResult : Int
  nodeSession : List Nat
  uplinkIntervalSeconds : Nat
  sleepOk : Bool

/-- State threaded through the join loop: the failed-join streak and the
durable-store nonce value. -/
structure JoinSt where
  streak : Nat
  nonces : Option (List Nat)
  deriving DecidableEq, Repr

/-- How the join loop ended. -/
inductive LoopOut where
  /-- loop condition became false: the device is joined. -/
  | joined
  /-- a failed join attempt led into `gotoSleep`, which is terminal. -/
  | ended (e : SleepExit)
  /-- fuel exhausted (models in-process divergence through repeated
  positive status codes). -/
  | fuelOut
  deriving DecidableEq, Repr

/-- The join loop, ESP32 lines 115-154: while the state is not
`RADIOLIB_ERR_NONE`, call `beginOTAA(..., true)`; on a negative result
compute the backoff from the streak (post-incrementing it, `uint16_t`) and
go to sleep; otherwise save the nonces to the durable store, zero the
streak and apply the 1 s guard delay, after which the `while` condition is
tested again.  `attempt` numbers the fresh-join calls of this invocation;
`fuel` bounds the in-process iterations. -/
def joinLoop (env : BootEnv) (st : JoinSt) (attempt : Nat) :
    Nat → JoinSt × List Ev × LoopOut
  | 0 => (st, [], .fuelOut)
  | fuel + 1 =>
    let s := env.joinResult attempt
    if s < 0 then
      let d := sleepForSeconds st.streak
      let st' : JoinSt := { st with streak := (st.streak + 1) % U16 }
      let g := gotoSleepE env.sleepOk d
      (st', .joinCall s :: g.1, .ended g.2)
    else
      let st' : JoinSt := { streak := 0, nonces := some env.nodeNonces }
      let pre : List Ev := [.joinCall s, .nonceStoreWrite env.nodeNonces, .guardDelay 1000]
      if s = 0 then
        (st', pre, .joined)
      else
        let r := joinLoop env st' (attempt + 1) fuel
        (r.1, pre ++ r.2.1, r.2.2)

/-- How one `setup()` invocation ended. -/
inductive CycleEnd where
  /-- Fatal `debug(..., true)` froze after `radio.begin()` failed. -/
  | fatalInit
  /-- Sleep via `gotoSleep` reached from the join-failure branch. -/
  | joinFailEnd (e : SleepExit)
  /-- Sleep via `gotoSleep(uplinkIntervalSeconds)` after the uplink. -/
  | uplinkEnd (e : SleepExit)
  /-- join-loop fuel exhausted. -/
  | fuelOut
  deriving DecidableEq, Repr

/-- Result of one `setup()` invocation. -/
structure CycleRes where
  retained : Retained
  nonces : Option (List Nat)
  trace : List Ev
  ending : CycleEnd
  deriving DecidableEq, Repr

/-- Helper for `debug(cond, msg, state, false)`: emit a report event when the
condition holds. -/
def reportIf (c : Prop) [Decidable c] (msg : String) : List Ev :=
  if c then [.report msg] else []

/-- The restore section of `setup()` (ESP32 lines 89-112): the events of
the three `debug(...)` restore checks.  The nonce-restore check runs only
when a saved nonce key exists, and its `debug` condition has no boot-count
guard (line 97); the session-buffer restore and session resumption checks
are guarded by `bootCount > 2`.  `bc` is the boot counter after the
increment in `print_wakeup_reason`. -/
def restoreTrace (bc : Nat) (nonces : Option (List Nat)) (env : BootEnv) :
    List Ev :=
  (match nonces with
   | some _ => reportIf (env.setBufferNoncesResult ≠ 0) "Restoring nonces buffer failed"
   | none => []) ++
  reportIf (env.setBufferSessionResult ≠ 0 ∧ 2 < bc) "Restoring session buffer failed" ++
  reportIf (env.beginOTAARestoreResult ≠ 0 ∧ 2 < bc) "Restore session failed"

/-- The join phase: the `while` loop of ESP32 lines 115-154 runs only when
the session-resumption `beginOTAA(..., false)` state is nonzero. -/
def joinPhase (env : BootEnv) (streak : Nat) (nonces : Option (List Nat))
    (fuel : Nat) : JoinSt × List Ev × LoopOut :=
  if env.beginOTAARestoreResult = 0 then
    ((⟨streak, nonces⟩ : JoinSt), ([] : List Ev), LoopOut.joined)
  else
    joinLoop env ⟨streak, nonces⟩ 0 fuel

/-- The uplink section of `setup()` (ESP32 lines 161-185): one
`sendReceive`, its `debug` check (success is `RADIOLIB_LORAWAN_NO_DOWNLINK`
or `RADIOLIB_ERR_NONE`), the session save to retained memory, and
`gotoSleep(uplinkIntervalSeconds)`. -/
def uplinkTrace (env : BootEnv) : List Ev :=
  Ev.uplinkCall env.sendReceiveResult ::
    reportIf (env.sendReceiveResult ≠ RADIOLIB_LORAWAN_NO_DOWNLINK ∧
        env.sendReceiveResult ≠ RADIOLIB_ERR_NONE) "Error in sendReceive" ++
  [Ev.sessionSave env.nodeSession] ++
  (gotoSleepE env.sleepOk env.uplinkIntervalSeconds).1

/-- One invocation of the ESP32 `setup()` (lines 75-187), as a function of
the retained memory, the durable-store nonce content and the environment.
`print_wakeup_reason` post-increments the `uint16_t` boot counter; a failed
`radio.begin()` freezes; the restore steps report per their guards;
the join loop runs while the restore state is nonzero; then one uplink,
the session save to retained memory, and `gotoSleep(uplinkIntervalSeconds)`. -/
def espCycle (st : Retained) (nonces : Option (List Nat)) (env : BootEnv)
    (fuel : Nat) : CycleRes :=
  if env.radioBeginResult ≠ 0 then
    ⟨{ st with bootCount := (st.bootCount + 1) % U16 }, nonces, [], .fatalInit⟩
  else
    match (joinPhase env st.streak nonces fuel).2.2 with
    | .joined =>
      ⟨⟨(st.bootCount + 1) % U16, (joinPhase env st.streak nonces fuel).1.streak,
          env.nodeSession⟩,
        (joinPhase env st.streak nonces fuel).1.nonces,
        restoreTrace ((st.bootCount + 1) % U16) nonces env ++
          (joinPhase env st.streak nonces fuel).2.1 ++ uplinkTrace env,
        .uplinkEnd (gotoSleepE env.sleepOk env.uplinkIntervalSeconds).2⟩
    | .ended e =>
      ⟨⟨(st.bootCount + 1) % U16, (joinPhase env st.streak nonces fuel).1.streak,
          st.session⟩,
        (joinPhase env st.streak nonces fuel).1.nonces,
        restoreTrace ((st.bootCount + 1) % U16) nonces env ++
          (joinPhase env st.streak nonces fuel).2.1,
        .joinFailEnd e⟩
    | .fuelOut =>
      ⟨⟨(st.bootCount + 1) % U16, (joinPhase env st.streak nonces fuel).1.streak,
          st.session⟩,
        (joinPhase env st.streak nonces fuel).1.nonces,
        restoreTrace ((st.bootCount + 1) % U16) nonces env ++
          (joinPhase env st.streak nonces fuel).2.1,
        .fuelOut⟩

/-- Repeated boots: each `setup()` invocation starts from the retained
memory and durable store left by the previous one (RTC memory survives
both deep sleep and `ESP.restart()`). -/
def runBoots (st : Retained) (nonces : Option (List Nat)) :
    List BootEnv → Nat → List CycleRes
  | [], _ => []
  | e :: rest, fuel =>
    let r := espCycle st nonces e fuel
    r :: runBoots r.retained r.nonces rest fuel

/-! ### Claim C1: the join backoff policy -/

/-- Claim C1: the Join Backoff Policy is a pure function of the streak:
for every value `s` the 16-bit streak counter can hold,
`sleepForSeconds s = min ((s+1)*60) 180`; it is monotone non-decreasing on
that domain; and its value at 2 and at 10 is 180 seconds. -/
theorem c1_backoff_policy :
    (∀ s : Nat, s < U16 → sleepForSeconds s = min ((s + 1) * 60) 180) ∧
    (∀ s t : Nat, s ≤ t → t < U16 → sleepForSeconds s ≤ sleepForSeconds t) ∧
    sleepForSeconds 2 = 180 ∧ sleepForSeconds 10 = 180 := by
  have hval : ∀ s : Nat, s < U16 → sleepForSeconds s = min ((s + 1) * 60) 180 := by
    intro s hs
    unfold sleepForSeconds U16 at *
    have h : (s + 1) * 60 % U32 = (s + 1) * 60 := by
      apply Nat.mod_eq_of_lt
      unfold U32
      omega
    rw [h]
  refine ⟨hval, ?_, by decide, by decide⟩
  intro s t hst ht
  rw [hval s (lt_of_le_of_lt hst ht), hval t ht]
  exact min_le_min (by omega) le_rfl

/-- Witness for C1 at concrete inputs. -/
theorem c1_backoff_policy_witness :
    sleepForSeconds 0 = min ((0 + 1) * 60) 180 ∧ sleepForSeconds 1 ≤ sleepForSeconds 4 :=
  ⟨c1_backoff_policy.1 0 (by decide), c1_backoff_policy.2.1 1 4 (by decide) (by decide)⟩

/-! ### Claim C10: the seconds-to-microseconds conversion -/

/-- Claim C10: `gotoSleep` converts seconds to microseconds as
`seconds * 1000UL * 1000UL` in 32-bit unsigned arithmetic, so the
programmed delay is `(seconds * 10^6) mod 2^32`, and the conversion is
exact precisely when `seconds ≤ 4294`. -/
theorem c10_sleep_micros (s : Nat) (hs : s < U32) :
    sleepMicros s = s * 1000000 % U32 ∧
    (sleepMicros s = s * 1000000 ↔ s ≤ 4294) := by
  have h1 : sleepMicros s = s * 1000000 % U32 := by
    unfold sleepMicros
    rw [Nat.mod_eq_of_lt hs]
    rw [Nat.mod_mul_mod, mul_assoc]
    norm_num
  refine ⟨h1, ?_⟩
  rw [h1]
  constructor
  · intro h
    by_contra hc
    push_neg at hc
    have hge : U32 ≤ s * 1000000 := by unfold U32; omega
    have := Nat.mod_lt (s * 1000000) (show 0 < U32 by decide)
    omega
  · intro h
    apply Nat.mod_eq_of_lt
    unfold U32
    omega

/-- Witness for C10: at 4294 seconds the conversion is exact, and the
general formula holds there. -/
theorem c10_sleep_micros_witness :
    sleepMicros 4294 = 4294 * 1000000 % U32 ∧
    (sleepMicros 4294 = 4294 * 1000000 ↔ 4294 ≤ 4294) :=
  c10_sleep_micros 4294 (by decide)

/-! ### Claim C2: the join-failure branch and the cold-boot scenario -/

/-- Environment of a boot whose fresh-join attempt fails (a negative
RadioLib join status), with the radio initialising fine and the session
restore failing (nothing to restore). -/
def envFail : BootEnv :=
  { radioBeginResult := 0
    setBufferNoncesResult := 0
    setBufferSessionResult := -1
    beginOTAARestoreResult := -1005
    joinResult := fun _ => -1116
    nodeNonces := [7]
    sendReceiveResult := 0
    nodeSession := [9]
    uplinkIntervalSeconds := 900
    sleepOk := true }

/-- Environment of a boot whose first fresh-join attempt succeeds. -/
def envJoinOk : BootEnv :=
  { radioBeginResult := 0
    setBufferNoncesResult := 0
    setBufferSessionResult := 0
    beginOTAARestoreResult := -1005
    joinResult := fun _ => 0
    nodeNonces := [7]
    sendReceiveResult := 0
    nodeSession := [9]
    uplinkIntervalSeconds := 900
    sleepOk := true }

/-- Claim C2: a join failure increments the failed-join streak and sleeps
for the duration the backoff policy assigns to the streak of that failure;
from a cold boot, two consecutive failed-join boots sleep 60 s then 120 s,
and the following successful boot stores the nonces and zeroes the
streak. -/
theorem c2_join_failure_backoff :
    (∀ (st : Retained) (n : Option (List Nat)) (env : BootEnv) (fuel : Nat),
      env.radioBeginResult = 0 → env.beginOTAARestoreResult ≠ 0 →
      env.joinResult 0 < 0 → env.sleepOk = true →
      (espCycle st n env (fuel + 1)).ending =
          .joinFailEnd (.slept (sleepForSeconds st.streak)) ∧
        (espCycle st n env (fuel + 1)).retained.streak = (st.streak + 1) % U16) ∧
    ((runBoots coldRetained none [envFail, envFail, envJoinOk] 4).map (·.ending) =
        [.joinFailEnd (.slept 60), .joinFailEnd (.slept 120), .uplinkEnd (.slept 900)] ∧
      (runBoots coldRetained none [envFail, envFail, envJoinOk] 4).map
          (·.retained.streak) = [1, 2, 0] ∧
      (runBoots coldRetained none [envFail, envFail, envJoinOk] 4).map (·.nonces) =
        [none, none, some [7]]) := by
  constructor
  · intro st n env fuel hr hrest hj hsleep
    have hphase : joinPhase env st.streak n (fuel + 1) =
        (⟨(st.streak + 1) % U16, n⟩,
          [Ev.joinCall (env.joinResult 0),
            Ev.sleepTimer (sleepMicros (sleepForSeconds st.streak)), Ev.deepSleep],
          .ended (.slept (sleepForSeconds st.streak))) := by
      simp only [joinPhase, if_neg hrest, joinLoop, if_pos hj, gotoSleepE, hsleep,
        if_true]
    simp [espCycle, hr, hphase]
  · exact ⟨by decide, by decide, by decide⟩

/-- Witness for C2 at a concrete boot state and environment. -/
theorem c2_join_failure_backoff_witness :
    (espCycle ⟨5, 3, []⟩ none envFail 1).ending =
        .joinFailEnd (.slept (sleepForSeconds 3)) ∧
      (espCycle ⟨5, 3, []⟩ none envFail 1).retained.streak = (3 + 1) % U16 :=
  c2_join_failure_backoff.1 ⟨5, 3, []⟩ none envFail 0 rfl (by decide) (by decide) rfl

/-! ### Claim C9: positive join status codes -/

/-- The join-loop trace always starts with the fresh-join call of the
current attempt. -/
theorem joinLoop_trace_head (env : BootEnv) (st : JoinSt) (a f : Nat) :
    (joinLoop env st a (f + 1)).2.1.get? 0 = some (.joinCall (env.joinResult a)) := by
  simp only [joinLoop]
  split
  · rfl
  · split <;> rfl

/-- Claim C9: a fresh-join status `s > 0` (neither the success code 0 nor
a negative error) runs the success-branch actions — the nonce write to the
durable store, the streak reset to 0, the guard delay — and yet the loop
condition still holds, so the loop carries on from the next attempt; when
fuel remains, the very next trace event after the guard delay is another
fresh-join call. -/
theorem c9_positive_join_status (env : BootEnv) (st : JoinSt) (attempt fuel : Nat)
    (hs : 0 < env.joinResult attempt) :
    (joinLoop env st attempt (fuel + 1)).1 =
        (joinLoop env ⟨0, some env.nodeNonces⟩ (attempt + 1) fuel).1 ∧
      (joinLoop env st attempt (fuel + 1)).2.1 =
        .joinCall (env.joinResult attempt) :: .nonceStoreWrite env.nodeNonces ::
          .guardDelay 1000 ::
          (joinLoop env ⟨0, some env.nodeNonces⟩ (attempt + 1) fuel).2.1 ∧
      (joinLoop env st attempt (fuel + 1)).2.2 =
        (joinLoop env ⟨0, some env.nodeNonces⟩ (attempt + 1) fuel).2.2 ∧
      (∀ f, fuel = f + 1 →
        (joinLoop env st attempt (fuel + 1)).2.1.get? 3 =
          some (.joinCall (env.joinResult (attempt + 1)))) := by
  have hnotlt : ¬ env.joinResult attempt < 0 := by omega
  have hne : ¬ env.joinResult attempt = 0 := by omega
  have htr : (joinLoop env st attempt (fuel + 1)).2.1 =
      .joinCall (env.joinResult attempt) :: .nonceStoreWrite env.nodeNonces ::
        .guardDelay 1000 ::
        (joinLoop env ⟨0, some env.nodeNonces⟩ (attempt + 1) fuel).2.1 := by
    simp only [joinLoop, if_neg hnotlt, if_neg hne]
    rfl
  refine ⟨?_, htr, ?_, ?_⟩
  · simp only [joinLoop, if_neg hnotlt, if_neg hne]
  · simp only [joinLoop, if_neg hnotlt, if_neg hne]
  · intro f hf
    rw [htr]
    have h0 : (Ev.joinCall (env.joinResult attempt) :: Ev.nonceStoreWrite env.nodeNonces ::
        Ev.guardDelay 1000 ::
        (joinLoop env ⟨0, some env.nodeNonces⟩ (attempt + 1) fuel).2.1).get? 3 =
        (joinLoop env ⟨0, some env.nodeNonces⟩ (attempt + 1) fuel).2.1.get? 0 := rfl
    rw [h0, hf]
    exact joinLoop_trace_head env ⟨0, some env.nodeNonces⟩ (attempt + 1) f

/-- Environment whose first fresh-join attempt returns the positive status
2 and whose second returns 0. -/
def envPosJoin : BootEnv :=
  { envJoinOk with joinResult := fun k => if k = 0 then 2 else 0 }

/-- Witness for C9: with a positive first join status the loop saves the
nonces, zeroes the streak, and makes a second fresh-join call. -/
theorem c9_positive_join_status_witness :
    (joinLoop envPosJoin ⟨3, none⟩ 0 3).1 =
        (joinLoop envPosJoin ⟨0, some envPosJoin.nodeNonces⟩ 1 2).1 ∧
      (joinLoop envPosJoin ⟨3, none⟩ 0 3).2.1 =
        .joinCall (envPosJoin.joinResult 0) :: .nonceStoreWrite envPosJoin.nodeNonces ::
          .guardDelay 1000 :: (joinLoop envPosJoin ⟨0, some envPosJoin.nodeNonces⟩ 1 2).2.1 ∧
      (joinLoop envPosJoin ⟨3, none⟩ 0 3).2.2 =
        (joinLoop envPosJoin ⟨0, some envPosJoin.nodeNonces⟩ 1 2).2.2 ∧
      (∀ f, 2 = f + 1 →
        (joinLoop envPosJoin ⟨3, none⟩ 0 3).2.1.get? 3 =
          some (.joinCall (envPosJoin.joinResult 1))) :=
  c9_positive_join_status envPosJoin ⟨3, none⟩ 0 2 (by decide)

/-! ### Claim C3: the durable nonce store is written only on join success -/

/-- Every durable nonce-store write in the trace sits immediately after a
fresh-join call that returned a non-negative (success) status, and writes
the node's nonce buffer `bs`. -/
def nwOk (bs : List Nat) (tr : List Ev) : Prop :=
  ∀ i b, tr.get? i = some (Ev.nonceStoreWrite b) →
    ∃ j s, i = j + 1 ∧ tr.get? j = some (Ev.joinCall s) ∧ 0 ≤ s ∧ b = bs

theorem nwOk_nil (bs : List Nat) : nwOk bs [] := by
  intro i b hi
  simp at hi

theorem nwOk_cons (bs : List Nat) (e : Ev) (tr : List Ev) (he : isNW e = false)
    (h : nwOk bs tr) : nwOk bs (e :: tr) := by
  intro i b hi
  match i with
  | 0 =>
    simp [List.get?] at hi
    rw [hi] at he
    simp [isNW] at he
  | Nat.succ i' =>
    obtain ⟨j, s, hj, hg, hs, hb⟩ := h i' b hi
    exact ⟨j + 1, s, by omega, by simpa using hg, hs, hb⟩

theorem nwOk_join (bs : List Nat) (s : Int) (tr : List Ev) (hs : 0 ≤ s)
    (h : nwOk bs tr) :
    nwOk bs (Ev.joinCall s :: Ev.nonceStoreWrite bs :: tr) := by
  intro i b hi
  match i with
  | 0 => simp [List.get?] at hi
  | 1 =>
    simp [List.get?] at hi
    exact ⟨0, s, rfl, rfl, hs, hi.symm⟩
  | Nat.succ (Nat.succ i') =>
    obtain ⟨j, s', hj, hg, hs', hb⟩ := h i' b hi
    exact ⟨j + 2, s', by omega, by simpa using hg, hs', hb⟩

theorem nwOk_appendL (bs : List Nat) (a tr : List Ev)
    (ha : ∀ e ∈ a, isNW e = false) (h : nwOk bs tr) : nwOk bs (a ++ tr) := by
  induction a with
  | nil => simpa using h
  | cons e a ih =>
    simp only [List.cons_append]
    exact nwOk_cons bs e _ (ha e (by simp)) (ih (fun e' he' => ha e' (by simp [he'])))

theorem nwOk_noNW (bs : List Nat) (tr : List Ev)
    (h : ∀ e ∈ tr, isNW e = false) : nwOk bs tr := by
  intro i b hi
  have hm : Ev.nonceStoreWrite b ∈ tr := List.get?_mem hi
  have := h _ hm
  simp [isNW] at this

theorem gotoSleepE_noNW (ok : Bool) (sec : Nat) :
    ∀ e ∈ (gotoSleepE ok sec).1, isNW e = false := by
  cases ok <;> simp [gotoSleepE, isNW]

theorem reportIf_noNW (c : Prop) [Decidable c] (m : String) :
    ∀ e ∈ reportIf c m, isNW e = false := by
  intro e he
  unfold reportIf at he
  split at he
  · simp at he
    simp [he, isNW]
  · simp at he

/-- The join-loop trace, followed by any tail of nonce-write-free events,
satisfies the write-after-successful-join property. -/
theorem joinLoop_nwOk (env : BootEnv) :
    ∀ (fuel : Nat) (st : JoinSt) (attempt : Nat) (post : List Ev),
      nwOk env.nodeNonces post →
      nwOk env.nodeNonces ((joinLoop env st attempt fuel).2.1 ++ post) := by
  intro fuel
  induction fuel with
  | zero =>
    intro st attempt post hpost
    simpa [joinLoop] using hpost
  | succ f ih =>
    intro st attempt post hpost
    by_cases hlt : env.joinResult attempt < 0
    · simp only [joinLoop, if_pos hlt, List.cons_append]
      refine nwOk_cons _ _ _ rfl ?_
      exact nwOk_appendL _ _ _ (gotoSleepE_noNW _ _) hpost
    · by_cases h0 : env.joinResult attempt = 0
      · simp only [joinLoop, if_neg hlt, if_pos h0, List.cons_append, List.nil_append]
        exact nwOk_join _ _ _ (by omega) (nwOk_cons _ _ _ rfl hpost)
      · simp only [joinLoop, if_neg hlt, if_neg h0, List.cons_append, List.append_assoc]
        exact nwOk_join _ _ _ (by omega)
          (nwOk_cons _ _ _ rfl (ih _ (attempt + 1) post hpost))

/-- The restore section emits no durable nonce-store write. -/
theorem restoreTrace_noNW (bc : Nat) (n : Option (List Nat)) (env : BootEnv) :
    ∀ e ∈ restoreTrace bc n env, isNW e = false := by
  intro e he
  unfold restoreTrace at he
  rcases List.mem_append.mp he with h | h
  · rcases List.mem_append.mp h with h | h
    · cases n with
      | some b => exact reportIf_noNW _ _ e h
      | none => simp at h
    · exact reportIf_noNW _ _ e h
  · exact reportIf_noNW _ _ e h

/-- The uplink section emits no durable nonce-store write. -/
theorem uplinkTrace_noNW (env : BootEnv) :
    ∀ e ∈ uplinkTrace env, isNW e = false := by
  intro e he
  unfold uplinkTrace at he
  rcases List.mem_append.mp he with h | h
  · rcases List.mem_append.mp h with h | h
    · rcases List.mem_cons.mp h with h | h
      · simp [h, isNW]
      · exact reportIf_noNW _ _ e h
    · simp only [List.mem_singleton] at h
      simp [h, isNW]
  · exact gotoSleepE_noNW _ _ e h

/-- The whole-cycle trace satisfies the write-after-successful-join
property: restore steps, uplink and sleeps never write the nonce store. -/
theorem espCycle_nwOk (st : Retained) (n : Option (List Nat)) (env : BootEnv)
    (fuel : Nat) : nwOk env.nodeNonces (espCycle st n env fuel).trace := by
  have hjp : nwOk env.nodeNonces
      ((joinPhase env st.streak n fuel).2.1 ++ uplinkTrace env) := by
    unfold joinPhase
    split
    · simpa using nwOk_noNW env.nodeNonces _ (uplinkTrace_noNW env)
    · exact joinLoop_nwOk env fuel _ 0 _
        (nwOk_noNW env.nodeNonces _ (uplinkTrace_noNW env))
  have hjp2 : nwOk env.nodeNonces ((joinPhase env st.streak n fuel).2.1) := by
    unfold joinPhase
    split
    · exact nwOk_nil _
    · have := joinLoop_nwOk env fuel ⟨st.streak, n⟩ 0 [] (nwOk_nil _)
      simpa using this
  unfold espCycle
  split
  · exact nwOk_nil _
  · split
    · show nwOk env.nodeNonces (restoreTrace ((st.bootCount + 1) % U16) n env ++
        (joinPhase env st.streak n fuel).2.1 ++ uplinkTrace env)
      rw [List.append_assoc]
      exact nwOk_appendL _ _ _ (restoreTrace_noNW _ n env) hjp
    · show nwOk env.nodeNonces (restoreTrace ((st.bootCount + 1) % U16) n env ++
        (joinPhase env st.streak n fuel).2.1)
      exact nwOk_appendL _ _ _ (restoreTrace_noNW _ n env) hjp2
    · show nwOk env.nodeNonces (restoreTrace ((st.bootCount + 1) % U16) n env ++
        (joinPhase env st.streak n fuel).2.1)
      exact nwOk_appendL _ _ _ (restoreTrace_noNW _ n env) hjp2

/-- Claim C3: the durable nonce store is written only in the success branch
of the join loop, immediately after a join call returned a non-negative
status, and only with the node's nonce buffer; no restore step, failed join
attempt, uplink or sleep ever writes it. -/
theorem c3_nonces_written_only_after_join_success (st : Retained)
    (n : Option (List Nat)) (env : BootEnv) (fuel i : Nat) (b : List Nat)
    (h : (espCycle st n env fuel).trace.get? i = some (.nonceStoreWrite b)) :
    ∃ j s, i = j + 1 ∧
      (espCycle st n env fuel).trace.get? j = some (.joinCall s) ∧
      0 ≤ s ∧ b = env.nodeNonces :=
  espCycle_nwOk st n env fuel i b h

/-- Witness for C3 at a concrete cycle whose trace has a nonce write at
index 1. -/
theorem c3_nonces_written_only_after_join_success_witness :
    ∃ j s, (1 : Nat) = j + 1 ∧
      (espCycle coldRetained none envJoinOk 2).trace.get? j = some (.joinCall s) ∧
      0 ≤ s ∧ [7] = envJoinOk.nodeNonces :=
  c3_nonces_written_only_after_join_success coldRetained none envJoinOk 2 1 [7]
    (by decide)

/-! ### Claim C4: what sets the failed-join streak to zero -/

/-- Number of fresh-join calls recorded in a trace. -/
def countJoins (tr : List Ev) : Nat := tr.countP isJoinEv

theorem mem_reportIf (c : Prop) [Decidable c] (m : String) :
    ∀ e ∈ reportIf c m, e = .report m := by
  intro e he
  unfold reportIf at he
  split at he
  · simpa using he
  · simp at he

theorem gotoSleepE_noJoin (ok : Bool) (sec : Nat) :
    ∀ e ∈ (gotoSleepE ok sec).1, isJoinEv e = false := by
  cases ok <;> simp [gotoSleepE, isJoinEv]

theorem restoreTrace_noJoin (bc : Nat) (n : Option (List Nat)) (env : BootEnv) :
    ∀ e ∈ restoreTrace bc n env, isJoinEv e = false := by
  intro e he
  unfold restoreTrace at he
  rcases List.mem_append.mp he with h | h
  · rcases List.mem_append.mp h with h | h
    · cases n with
      | some b => rw [mem_reportIf _ _ e h]; rfl
      | none => simp at h
    · rw [mem_reportIf _ _ e h]; rfl
  · rw [mem_reportIf _ _ e h]; rfl

theorem uplinkTrace_noJoin (env : BootEnv) :
    ∀ e ∈ uplinkTrace env, isJoinEv e = false := by
  intro e he
  unfold uplinkTrace at he
  rcases List.mem_append.mp he with h | h
  · rcases List.mem_append.mp h with h | h
    · rcases List.mem_cons.mp h with h | h
      · simp [h, isJoinEv]
      · rw [mem_reportIf _ _ e h]; rfl
    · simp only [List.mem_singleton] at h
      simp [h, isJoinEv]
  · exact gotoSleepE_noJoin _ _ e h

theorem countJoins_restoreTrace (bc : Nat) (n : Option (List Nat)) (env : BootEnv) :
    countJoins (restoreTrace bc n env) = 0 := by
  refine List.countP_eq_zero.mpr ?_
  intro e he
  simp [restoreTrace_noJoin bc n env e he]

theorem countJoins_uplinkTrace (env : BootEnv) :
    countJoins (uplinkTrace env) = 0 := by
  refine List.countP_eq_zero.mpr ?_
  intro e he
  simp [uplinkTrace_noJoin env e he]

theorem countJoins_gotoSleepE (ok : Bool) (sec : Nat) :
    countJoins (gotoSleepE ok sec).1 = 0 := by
  refine List.countP_eq_zero.mpr ?_
  intro e he
  simp [gotoSleepE_noJoin ok sec e he]

/-- One-step unfolding of the join loop, failing attempt. -/
theorem joinLoop_fail_eq (env : BootEnv) (st : JoinSt) (a f : Nat)
    (hlt : env.joinResult a < 0) :
    joinLoop env st a (f + 1) =
      ({ st with streak := (st.streak + 1) % U16 },
        .joinCall (env.joinResult a) ::
          (gotoSleepE env.sleepOk (sleepForSeconds st.streak)).1,
        .ended (gotoSleepE env.sleepOk (sleepForSeconds st.streak)).2) := by
  simp only [joinLoop, if_pos hlt]

/-- One-step unfolding of the join loop, attempt returning the success
code 0. -/
theorem joinLoop_zero_eq (env : BootEnv) (st : JoinSt) (a f : Nat)
    (hlt : ¬ env.joinResult a < 0) (h0 : env.joinResult a = 0) :
    joinLoop env st a (f + 1) =
      (⟨0, some env.nodeNonces⟩,
        [.joinCall (env.joinResult a), .nonceStoreWrite env.nodeNonces,
          .guardDelay 1000],
        .joined) := by
  simp only [joinLoop, if_neg hlt, if_pos h0]

/-- One-step unfolding of the join loop, attempt returning a positive
status. -/
theorem joinLoop_pos_eq (env : BootEnv) (st : JoinSt) (a f : Nat)
    (hlt : ¬ env.joinResult a < 0) (h0 : ¬ env.joinResult a = 0) :
    joinLoop env st a (f + 1) =
      ((joinLoop env ⟨0, some env.nodeNonces⟩ (a + 1) f).1,
        .joinCall (env.joinResult a) :: .nonceStoreWrite env.nodeNonces ::
          .guardDelay 1000 ::
          (joinLoop env ⟨0, some env.nodeNonces⟩ (a + 1) f).2.1,
        (joinLoop env ⟨0, some env.nodeNonces⟩ (a + 1) f).2.2) := by
  simp only [joinLoop, if_neg hlt, if_neg h0]
  rfl

/-- If the join loop exits joined, the streak was just set to zero by the
success branch of the last attempt, whatever its prior value. -/
theorem joinLoop_joined_streak (env : BootEnv) :
    ∀ (fuel : Nat) (st : JoinSt) (attempt : Nat),
      (joinLoop env st attempt fuel).2.2 = .joined →
      (joinLoop env st attempt fuel).1.streak = 0 := by
  intro fuel
  induction fuel with
  | zero =>
    intro st a h
    simp [joinLoop] at h
  | succ f ih =>
    intro st a h
    by_cases hlt : env.joinResult a < 0
    · rw [joinLoop_fail_eq env st a f hlt] at h
      simp at h
    · by_cases h0 : env.joinResult a = 0
      · rw [joinLoop_zero_eq env st a f hlt h0]
      · rw [joinLoop_pos_eq env st a f hlt h0] at h ⊢
        exact ih _ _ h

/-- If the join loop ends in a failure sleep, the streak was set by the
`uint16_t` post-increment of the failing attempt: from the boot's initial
streak if the first attempt failed (one join call), else from the zero left
by a preceding success-branch pass (at least two join calls). -/
theorem joinLoop_ended_streak (env : BootEnv) :
    ∀ (fuel : Nat) (st : JoinSt) (attempt : Nat) (e : SleepExit),
      (joinLoop env st attempt fuel).2.2 = .ended e →
      ((joinLoop env st attempt fuel).1.streak = (st.streak + 1) % U16 ∧
          countJoins (joinLoop env st attempt fuel).2.1 = 1) ∨
        ((joinLoop env st attempt fuel).1.streak = 1 ∧
          2 ≤ countJoins (joinLoop env st attempt fuel).2.1) := by
  intro fuel
  induction fuel with
  | zero =>
    intro st a e h
    simp [joinLoop] at h
  | succ f ih =>
    intro st a e h
    by_cases hlt : env.joinResult a < 0
    · left
      rw [joinLoop_fail_eq env st a f hlt]
      refine ⟨rfl, ?_⟩
      have hz := countJoins_gotoSleepE env.sleepOk (sleepForSeconds st.streak)
      unfold countJoins at hz ⊢
      simp [List.countP_cons, isJoinEv, hz]
    · by_cases h0 : env.joinResult a = 0
      · rw [joinLoop_zero_eq env st a f hlt h0] at h
        simp at h
      · rw [joinLoop_pos_eq env st a f hlt h0] at h ⊢
        rcases ih ⟨0, some env.nodeNonces⟩ (a + 1) e h with ⟨hs, hc⟩ | ⟨hs, hc⟩
        · right
          refine ⟨by rw [hs]; rfl, ?_⟩
          unfold countJoins at hc ⊢
          simp [List.countP_cons, isJoinEv, hc]
        · right
          refine ⟨hs, ?_⟩
          unfold countJoins at hc ⊢
          have hstep : List.countP isJoinEv
              (Ev.joinCall (env.joinResult a) :: Ev.nonceStoreWrite env.nodeNonces ::
                Ev.guardDelay 1000 ::
                (joinLoop env ⟨0, some env.nodeNonces⟩ (a + 1) f).2.1) =
              List.countP isJoinEv
                (joinLoop env ⟨0, some env.nodeNonces⟩ (a + 1) f).2.1 + 1 := by
            simp [List.countP_cons, isJoinEv]
          rw [hstep]
          omega

/-- A join loop that recorded no fresh-join call did not run at all. -/
theorem joinLoop_count_zero (env : BootEnv) (fuel : Nat) (st : JoinSt)
    (a : Nat) (h : countJoins (joinLoop env st a fuel).2.1 = 0) :
    (joinLoop env st a fuel).1 = st := by
  cases fuel with
  | zero => rfl
  | succ f =>
    exfalso
    by_cases hlt : env.joinResult a < 0
    · rw [joinLoop_fail_eq env st a f hlt] at h
      unfold countJoins at h
      simp [List.countP_cons, isJoinEv] at h
    · by_cases h0 : env.joinResult a = 0
      · rw [joinLoop_zero_eq env st a f hlt h0] at h
        unfold countJoins at h
        simp [List.countP_cons, isJoinEv] at h
      · rw [joinLoop_pos_eq env st a f hlt h0] at h
        unfold countJoins at h
        simp [List.countP_cons, isJoinEv] at h

/-- Join-phase version of `joinLoop_joined_streak`, assuming at least one
join call was made. -/
theorem joinPhase_joined_streak (env : BootEnv) (streak : Nat)
    (n : Option (List Nat)) (fuel : Nat)
    (h : (joinPhase env streak n fuel).2.2 = .joined)
    (hcnt : 1 ≤ countJoins (joinPhase env streak n fuel).2.1) :
    (joinPhase env streak n fuel).1.streak = 0 := by
  unfold joinPhase at h hcnt ⊢
  by_cases hres : env.beginOTAARestoreResult = 0
  · rw [if_pos hres] at hcnt
    simp [countJoins] at hcnt
  · rw [if_neg hres] at h ⊢
    exact joinLoop_joined_streak env fuel _ 0 h

/-- Join-phase version of `joinLoop_ended_streak`. -/
theorem joinPhase_ended_streak (env : BootEnv) (streak : Nat)
    (n : Option (List Nat)) (fuel : Nat) (e : SleepExit)
    (h : (joinPhase env streak n fuel).2.2 = .ended e) :
    ((joinPhase env streak n fuel).1.streak = (streak + 1) % U16 ∧
        countJoins (joinPhase env streak n fuel).2.1 = 1) ∨
      ((joinPhase env streak n fuel).1.streak = 1 ∧
        2 ≤ countJoins (joinPhase env streak n fuel).2.1) := by
  unfold joinPhase at h ⊢
  by_cases hres : env.beginOTAARestoreResult = 0
  · rw [if_pos hres] at h
    simp at h
  · rw [if_neg hres] at h ⊢
    exact joinLoop_ended_streak env fuel _ 0 e h

/-- Join-phase version of `joinLoop_count_zero`. -/
theorem joinPhase_count_zero (env : BootEnv) (streak : Nat)
    (n : Option (List Nat)) (fuel : Nat)
    (h : countJoins (joinPhase env streak n fuel).2.1 = 0) :
    (joinPhase env streak n fuel).1 = ⟨streak, n⟩ := by
  unfold joinPhase at h ⊢
  by_cases hres : env.beginOTAARestoreResult = 0
  · rw [if_pos hres]
  · rw [if_neg hres] at h ⊢
    exact joinLoop_count_zero env fuel _ 0 h

/-- When the radio initialises, the cycle's final streak is the join
phase's final streak. -/
theorem espCycle_streak (st : Retained) (n : Option (List Nat))
    (env : BootEnv) (fuel : Nat) (hr : env.radioBeginResult = 0) :
    (espCycle st n env fuel).retained.streak =
      (joinPhase env st.streak n fuel).1.streak := by
  rcases hjp : (joinPhase env st.streak n fuel).2.2 with _ | e' | _ <;>
    simp [espCycle, hr, hjp]

/-- A failed radio initialisation freezes: nothing else happens. -/
theorem espCycle_fatal (st : Retained) (n : Option (List Nat))
    (env : BootEnv) (fuel : Nat) (hr : env.radioBeginResult ≠ 0) :
    (espCycle st n env fuel).ending = .fatalInit ∧
      (espCycle st n env fuel).retained.streak = st.streak ∧
      (espCycle st n env fuel).trace = [] := by
  simp [espCycle, hr]

/-- The cycle's ending determines how the join phase exited. -/
theorem espCycle_ending_cases (st : Retained) (n : Option (List Nat))
    (env : BootEnv) (fuel : Nat) (hr : env.radioBeginResult = 0) :
    ((espCycle st n env fuel).ending =
        .uplinkEnd (gotoSleepE env.sleepOk env.uplinkIntervalSeconds).2 ∧
      (joinPhase env st.streak n fuel).2.2 = .joined) ∨
    (∃ e, (espCycle st n env fuel).ending = .joinFailEnd e ∧
      (joinPhase env st.streak n fuel).2.2 = .ended e) ∨
    ((espCycle st n env fuel).ending = .fuelOut ∧
      (joinPhase env st.streak n fuel).2.2 = .fuelOut) := by
  rcases hjp : (joinPhase env st.streak n fuel).2.2 with _ | e' | _
  · left
    exact ⟨by simp [espCycle, hr, hjp], rfl⟩
  · right; left
    exact ⟨e', by simp [espCycle, hr, hjp], rfl⟩
  · right; right
    exact ⟨by simp [espCycle, hr, hjp], rfl⟩

/-- The fresh-join calls of a cycle all come from the join phase. -/
theorem countJoins_espCycle (st : Retained) (n : Option (List Nat))
    (env : BootEnv) (fuel : Nat) (hr : env.radioBeginResult = 0) :
    countJoins (espCycle st n env fuel).trace =
      countJoins (joinPhase env st.streak n fuel).2.1 := by
  have h1 := countJoins_restoreTrace ((st.bootCount + 1) % U16) n env
  have h2 := countJoins_uplinkTrace env
  unfold countJoins at h1 h2 ⊢
  rcases hjp : (joinPhase env st.streak n fuel).2.2 with _ | e' | _ <;>
    simp [espCycle, hr, hjp, List.countP_append, h1, h2]

/-- Counterexample to claim C4 as stated: with a prior streak of 65535
(the `uint16_t` maximum) a single failed join attempt — no successful join,
no nonce write — leaves the streak at exactly 0, because the post-increment
wraps: `(65535 + 1) mod 2^16 = 0`. -/
theorem c4_counterexample :
    (espCycle ⟨1, 65535, []⟩ none envFail 1).retained.streak = 0 ∧
      ((espCycle ⟨1, 65535, []⟩ none envFail 1).trace.all fun e => !isNW e) = true ∧
      (espCycle ⟨1, 65535, []⟩ none envFail 1).ending =
        .joinFailEnd (.slept 180) :=
  ⟨by decide, by decide, by decide⟩

/-- Claim C4 as amended: a successful join sets the streak to exactly 0
for every prior value; within a powered session the only other way it
becomes 0 is the 16-bit wrap-around when a join fails with prior streak
65535 (necessarily the boot's only join call); a cycle that makes no
fresh-join call leaves the streak unchanged; and a cold boot initializes
it to 0. -/
theorem c4_amended (st : Retained) (n : Option (List Nat)) (env : BootEnv)
    (fuel : Nat) (h16 : st.streak < U16) :
    (∀ e, (espCycle st n env fuel).ending = .uplinkEnd e →
        1 ≤ countJoins (espCycle st n env fuel).trace →
        (espCycle st n env fuel).retained.streak = 0) ∧
      (∀ e, (espCycle st n env fuel).ending = .joinFailEnd e →
        ((espCycle st n env fuel).retained.streak = 0 ↔
          st.streak = 65535 ∧ countJoins (espCycle st n env fuel).trace = 1)) ∧
      (countJoins (espCycle st n env fuel).trace = 0 →
        (espCycle st n env fuel).retained.streak = st.streak) ∧
      coldRetained.streak = 0 := by
  refine ⟨?_, ?_, ?_, rfl⟩
  · intro e he hone
    by_cases hr : env.radioBeginResult = 0
    · rw [espCycle_streak st n env fuel hr]
      rw [countJoins_espCycle st n env fuel hr] at hone
      rcases espCycle_ending_cases st n env fuel hr with
        ⟨_, hj⟩ | ⟨e2, hu, _⟩ | ⟨hu, _⟩
      · exact joinPhase_joined_streak env st.streak n fuel hj hone
      · rw [he] at hu; simp at hu
      · rw [he] at hu; simp at hu
    · have hfat := (espCycle_fatal st n env fuel hr).1
      rw [he] at hfat; simp at hfat
  · intro e he
    by_cases hr : env.radioBeginResult = 0
    · rw [espCycle_streak st n env fuel hr,
        countJoins_espCycle st n env fuel hr]
      rcases espCycle_ending_cases st n env fuel hr with
        ⟨hu, _⟩ | ⟨e2, hu, hj⟩ | ⟨hu, _⟩
      · rw [he] at hu; simp at hu
      · rcases joinPhase_ended_streak env st.streak n fuel e2 hj with
          ⟨hs, hc⟩ | ⟨hs, hc⟩
        · rw [hs, hc]
          constructor
          · intro hz
            refine ⟨?_, rfl⟩
            unfold U16 at hz h16
            omega
          · rintro ⟨hst, -⟩
            rw [hst]
            decide
        · rw [hs]
          constructor
          · intro hz
            exact absurd hz (by decide)
          · rintro ⟨-, hc1⟩
            omega
      · rw [he] at hu; simp at hu
    · have hfat := (espCycle_fatal st n env fuel hr).1
      rw [he] at hfat; simp at hfat
  · intro hz
    by_cases hr : env.radioBeginResult = 0
    · rw [espCycle_streak st n env fuel hr]
      rw [countJoins_espCycle st n env fuel hr] at hz
      rw [joinPhase_count_zero env st.streak n fuel hz]
    · exact (espCycle_fatal st n env fuel hr).2.1

/-- Witness for the amended C4: the wrap-around case holds at the concrete
counterexample input. -/
theorem c4_amended_witness :
    (espCycle ⟨1, 65535, []⟩ none envFail 1).retained.streak = 0 ↔
      65535 = 65535 ∧
        countJoins (espCycle ⟨1, 65535, []⟩ none envFail 1).trace = 1 :=
  (c4_amended ⟨1, 65535, []⟩ none envFail 1 (by decide)).2.1 (.slept 180) (by decide)

/-! ### Claim C6: suppression of restore-step failure reports -/

theorem mem_reportIf_iff (c : Prop) [Decidable c] (m m' : String) :
    (Ev.report m ∈ reportIf c m') ↔ (c ∧ m = m') := by
  unfold reportIf
  split
  case isTrue h => simp [h]
  case isFalse h => simp [h]

theorem gotoSleepE_noReport (ok : Bool) (sec : Nat) (m : String) :
    Ev.report m ∉ (gotoSleepE ok sec).1 := by
  cases ok <;> simp [gotoSleepE]

/-- The join loop prints join diagnostics but emits no `debug` report. -/
theorem joinLoop_no_report (env : BootEnv) :
    ∀ (fuel : Nat) (st : JoinSt) (a : Nat) (m : String),
      Ev.report m ∉ (joinLoop env st a fuel).2.1 := by
  intro fuel
  induction fuel with
  | zero =>
    intro st a m h
    simp [joinLoop] at h
  | succ f ih =>
    intro st a m h
    by_cases hlt : env.joinResult a < 0
    · rw [joinLoop_fail_eq env st a f hlt] at h
      rcases List.mem_cons.mp h with h | h
      · simp at h
      · exact gotoSleepE_noReport _ _ m h
    · by_cases h0 : env.joinResult a = 0
      · rw [joinLoop_zero_eq env st a f hlt h0] at h
        simp at h
      · rw [joinLoop_pos_eq env st a f hlt h0] at h
        rcases List.mem_cons.mp h with h | h
        · simp at h
        · rcases List.mem_cons.mp h with h | h
          · simp at h
          · rcases List.mem_cons.mp h with h | h
            · simp at h
            · exact ih _ _ m h

theorem joinPhase_no_report (env : BootEnv) (streak : Nat)
    (n : Option (List Nat)) (fuel : Nat) (m : String) :
    Ev.report m ∉ (joinPhase env streak n fuel).2.1 := by
  unfold joinPhase
  by_cases hres : env.beginOTAARestoreResult = 0
  · rw [if_pos hres]
    simp
  · rw [if_neg hres]
    exact joinLoop_no_report env fuel _ 0 m

/-- The uplink section reports only about `sendReceive`. -/
theorem uplinkTrace_report (env : BootEnv) (m : String)
    (hm : m ≠ "Error in sendReceive") : Ev.report m ∉ uplinkTrace env := by
  intro h
  unfold uplinkTrace at h
  rcases List.mem_append.mp h with h | h
  · rcases List.mem_append.mp h with h | h
    · rcases List.mem_cons.mp h with h | h
      · simp at h
      · exact hm ((mem_reportIf_iff _ _ _).mp h).2
    · simp at h
  · exact gotoSleepE_noReport _ _ m h

/-- A report about one of the restore steps stands in the cycle trace
exactly when the restore section emitted it. -/
theorem report_espCycle_iff (st : Retained) (n : Option (List Nat))
    (env : BootEnv) (fuel : Nat) (m : String)
    (hr : env.radioBeginResult = 0) (hm : m ≠ "Error in sendReceive") :
    (Ev.report m ∈ (espCycle st n env fuel).trace ↔
      Ev.report m ∈ restoreTrace ((st.bootCount + 1) % U16) n env) := by
  have hloop := joinPhase_no_report env st.streak n fuel m
  have hup := uplinkTrace_report env m hm
  rcases hjp : (joinPhase env st.streak n fuel).2.2 with _ | e | _ <;>
    simp [espCycle, hr, hjp, List.mem_append, hloop, hup]

theorem restore_nonces_report_iff (bc : Nat) (n : Option (List Nat))
    (env : BootEnv) :
    (Ev.report "Restoring nonces buffer failed" ∈ restoreTrace bc n env ↔
      (n ≠ none ∧ env.setBufferNoncesResult ≠ 0)) := by
  unfold restoreTrace
  cases n <;> simp [List.mem_append, mem_reportIf_iff]

theorem restore_session_report_iff (bc : Nat) (n : Option (List Nat))
    (env : BootEnv) :
    (Ev.report "Restoring session buffer failed" ∈ restoreTrace bc n env ↔
      (env.setBufferSessionResult ≠ 0 ∧ 2 < bc)) := by
  unfold restoreTrace
  cases n <;> simp [List.mem_append, mem_reportIf_iff]

theorem restore_resume_report_iff (bc : Nat) (n : Option (List Nat))
    (env : BootEnv) :
    (Ev.report "Restore session failed" ∈ restoreTrace bc n env ↔
      (env.beginOTAARestoreResult ≠ 0 ∧ 2 < bc)) := by
  unfold restoreTrace
  cases n <;> simp [List.mem_append, mem_reportIf_iff]

/-- The ESP8266 restore section (first sketch copy lines 108-133; second
copy lines 338-364): the nonce bytes are read from EEPROM unconditionally
and all three restore `debug` checks carry the `bootCount > 2` guard,
including the nonce-buffer one. -/
def esp8266RestoreTrace (bc : Nat) (noncesRes sessRes resumeRes : Int) :
    List Ev :=
  reportIf (noncesRes ≠ 0 ∧ 2 < bc) "Restoring nonces buffer failed" ++
  reportIf (sessRes ≠ 0 ∧ 2 < bc) "Restoring session buffer failed" ++
  reportIf (resumeRes ≠ 0 ∧ 2 < bc) "Restore session failed"

/-- Environment whose nonce-buffer restore fails while everything else
succeeds. -/
def envNonceFail : BootEnv :=
  { envJoinOk with setBufferNoncesResult := -22, beginOTAARestoreResult := 0 }

/-- Counterexample to claim C6 as stated: on the ESP32 the nonce-buffer
restore `debug` has no boot-count guard, so its failure is reported even
with BootCounter ≤ 2.  Concretely: the first boot after a power loss
(boot counter 1 → 2) finds durably stored nonces (they survive power loss)
whose restore fails, and the error is reported. -/
theorem c6_counterexample :
    Ev.report "Restoring nonces buffer failed" ∈
        (espCycle ⟨1, 0, []⟩ (some [1]) envNonceFail 1).trace ∧
      (espCycle ⟨1, 0, []⟩ (some [1]) envNonceFail 1).retained.bootCount ≤ 2 :=
  ⟨by decide, by decide⟩

/-- Claim C6 as amended: the session-buffer restore and session-resumption
failure reports are suppressed exactly when the (incremented) BootCounter
is ≤ 2, on both the ESP32 and the ESP8266; the ESP8266 guards its
nonce-buffer restore the same way, but the ESP32 attempts the nonce
restore only when a saved key exists and then reports any failure
regardless of BootCounter. -/
theorem c6_amended :
    (∀ (st : Retained) (n : Option (List Nat)) (env : BootEnv) (fuel : Nat),
      env.radioBeginResult = 0 →
      ((Ev.report "Restoring session buffer failed" ∈
          (espCycle st n env fuel).trace ↔
        (env.setBufferSessionResult ≠ 0 ∧ 2 < (st.bootCount + 1) % U16)) ∧
      (Ev.report "Restore session failed" ∈ (espCycle st n env fuel).trace ↔
        (env.beginOTAARestoreResult ≠ 0 ∧ 2 < (st.bootCount + 1) % U16)) ∧
      (Ev.report "Restoring nonces buffer failed" ∈
          (espCycle st n env fuel).trace ↔
        (n ≠ none ∧ env.setBufferNoncesResult ≠ 0)))) ∧
    (∀ (bc : Nat) (nr sr rr : Int),
      ((Ev.report "Restoring nonces buffer failed" ∈
          esp8266RestoreTrace bc nr sr rr ↔ (nr ≠ 0 ∧ 2 < bc)) ∧
      (Ev.report "Restoring session buffer failed" ∈
          esp8266RestoreTrace bc nr sr rr ↔ (sr ≠ 0 ∧ 2 < bc)) ∧
      (Ev.report "Restore session failed" ∈
          esp8266RestoreTrace bc nr sr rr ↔ (rr ≠ 0 ∧ 2 < bc)))) := by
  constructor
  · intro st n env fuel hr
    refine ⟨?_, ?_, ?_⟩
    · rw [report_espCycle_iff st n env fuel _ hr (by decide)]
      exact restore_session_report_iff _ n env
    · rw [report_espCycle_iff st n env fuel _ hr (by decide)]
      exact restore_resume_report_iff _ n env
    · rw [report_espCycle_iff st n env fuel _ hr (by decide)]
      exact restore_nonces_report_iff _ n env
  · intro bc nr sr rr
    refine ⟨?_, ?_, ?_⟩ <;> simp [esp8266RestoreTrace, List.mem_append, mem_reportIf_iff]

/-- Witness for the amended C6 at a concrete boot state and environment. -/
theorem c6_amended_witness :
    Ev.report "Restoring session buffer failed" ∈
        (espCycle ⟨2, 0, []⟩ none envFail 1).trace ↔
      (envFail.setBufferSessionResult ≠ 0 ∧ 2 < (2 + 1) % U16) :=
  (c6_amended.1 ⟨2, 0, []⟩ none envFail 1 rfl).1

/-! ### Claim C7: uplink outcomes, session save and full-interval sleep -/

/-- The restore section can only report its own three messages. -/
theorem restoreTrace_msgs (bc : Nat) (n : Option (List Nat)) (env : BootEnv)
    (e : Ev) (he : e ∈ restoreTrace bc n env) :
    e = .report "Restoring nonces buffer failed" ∨
      e = .report "Restoring session buffer failed" ∨
      e = .report "Restore session failed" := by
  unfold restoreTrace at he
  rcases List.mem_append.mp he with h | h
  · rcases List.mem_append.mp h with h | h
    · cases n with
      | some b => exact Or.inl (mem_reportIf _ _ e h)
      | none => simp at h
    · exact Or.inr (Or.inl (mem_reportIf _ _ e h))
  · exact Or.inr (Or.inr (mem_reportIf _ _ e h))

theorem restoreTrace_no_uplink_report (bc : Nat) (n : Option (List Nat))
    (env : BootEnv) : Ev.report "Error in sendReceive" ∉ restoreTrace bc n env := by
  intro h
  rcases restoreTrace_msgs bc n env _ h with h1 | h1 | h1 <;> simp at h1

/-- The uplink section reports exactly when the `sendReceive` status is
neither `RADIOLIB_LORAWAN_NO_DOWNLINK` nor `RADIOLIB_ERR_NONE`. -/
theorem uplink_report_iff (env : BootEnv) :
    (Ev.report "Error in sendReceive" ∈ uplinkTrace env ↔
      (env.sendReceiveResult ≠ RADIOLIB_LORAWAN_NO_DOWNLINK ∧
        env.sendReceiveResult ≠ RADIOLIB_ERR_NONE)) := by
  unfold uplinkTrace
  simp [List.mem_append, mem_reportIf_iff,
    gotoSleepE_noReport env.sleepOk env.uplinkIntervalSeconds "Error in sendReceive"]

/-- Claim C7: a `sendReceive` outcome of `RADIOLIB_LORAWAN_NO_DOWNLINK` is
treated exactly like `RADIOLIB_ERR_NONE` — no report; every other outcome
is reported non-fatally; and in all cases the cycle saves the post-uplink
session to retained memory and sleeps for the full configured uplink
interval. -/
theorem c7_uplink_outcomes (st : Retained) (n : Option (List Nat))
    (env : BootEnv) (fuel : Nat) (hr : env.radioBeginResult = 0)
    (hres : env.beginOTAARestoreResult = 0) (hsleep : env.sleepOk = true) :
    ((Ev.report "Error in sendReceive" ∈ (espCycle st n env fuel).trace ↔
        (env.sendReceiveResult ≠ RADIOLIB_LORAWAN_NO_DOWNLINK ∧
          env.sendReceiveResult ≠ RADIOLIB_ERR_NONE)) ∧
      Ev.sessionSave env.nodeSession ∈ (espCycle st n env fuel).trace ∧
      (espCycle st n env fuel).retained.session = env.nodeSession ∧
      (espCycle st n env fuel).ending =
        .uplinkEnd (.slept env.uplinkIntervalSeconds)) := by
  have hjp : joinPhase env st.streak n fuel = (⟨st.streak, n⟩, [], .joined) := by
    unfold joinPhase
    rw [if_pos hres]
  refine ⟨?_, ?_, ?_, ?_⟩
  · rw [show (espCycle st n env fuel).trace =
        restoreTrace ((st.bootCount + 1) % U16) n env ++ ([] ++ uplinkTrace env) by
      simp [espCycle, hr, hjp]]
    simp only [List.nil_append, List.mem_append]
    rw [uplink_report_iff env]
    have hnor := restoreTrace_no_uplink_report ((st.bootCount + 1) % U16) n env
    constructor
    · intro h
      rcases h with h | h
      · exact absurd h hnor
      · exact h
    · intro h
      exact Or.inr h
  · rw [show (espCycle st n env fuel).trace =
        restoreTrace ((st.bootCount + 1) % U16) n env ++ ([] ++ uplinkTrace env) by
      simp [espCycle, hr, hjp]]
    refine List.mem_append.mpr (Or.inr ?_)
    unfold uplinkTrace
    simp
  · simp [espCycle, hr, hjp]
  · simp [espCycle, hr, hjp, gotoSleepE, hsleep]

/-- Environment for the witness of C7: the uplink returns the no-downlink
status. -/
def envNoDownlink : BootEnv :=
  { envJoinOk with
    beginOTAARestoreResult := 0
    sendReceiveResult := RADIOLIB_LORAWAN_NO_DOWNLINK }

/-- Witness for C7: with a no-downlink uplink outcome nothing is reported,
the session is saved, and the device sleeps the full interval. -/
theorem c7_uplink_outcomes_witness :
    ((Ev.report "Error in sendReceive" ∈
        (espCycle ⟨3, 0, []⟩ none envNoDownlink 1).trace ↔
        (envNoDownlink.sendReceiveResult ≠ RADIOLIB_LORAWAN_NO_DOWNLINK ∧
          envNoDownlink.sendReceiveResult ≠ RADIOLIB_ERR_NONE)) ∧
      Ev.sessionSave envNoDownlink.nodeSession ∈
        (espCycle ⟨3, 0, []⟩ none envNoDownlink 1).trace ∧
      (espCycle ⟨3, 0, []⟩ none envNoDownlink 1).retained.session =
        envNoDownlink.nodeSession ∧
      (espCycle ⟨3, 0, []⟩ none envNoDownlink 1).ending =
        .uplinkEnd (.slept envNoDownlink.uplinkIntervalSeconds)) :=
  c7_uplink_outcomes ⟨3, 0, []⟩ none envNoDownlink 1 rfl rfl rfl

/-! ### Claim C5: the boot counter across boots -/

/-- RP2040 setup lines 76-83: `bootCount` is read from watchdog scratch
register 1, and initialized to 1 when the register reads 0 (hardware
reset clears it). -/
def rp2040InitBootCount (scratch1 : Nat) : Nat :=
  if scratch1 = 0 then 1 else scratch1

/-- Value of `bootCount` across successive RP2040 boots.  Boot 0 follows a hardware
reset (scratch register 0); before each sleep, `gotoSleep` (line 53) stores
the current `bootCount` back into the scratch register, and no statement of
the RP2040 sketch ever increments `bootCount`, so each later boot reads
back the previous boot's unmodified value. -/
def rp2040BootCountSeq : Nat → Nat
  | 0 => rp2040InitBootCount 0
  | k + 1 => rp2040InitBootCount (rp2040BootCountSeq k)

/-- Claim C5, settled against the code: on the RP2040 the boot counter is
never incremented — it stays 1 on every boot while power is retained,
contradicting the claim (and the sketch's own comment, line 107, that
"bootCount has already been incremented, hence the > 2").  On the ESP32
the counter is incremented exactly once per invocation, as the claim
says. -/
theorem c5_rp2040_bootcount_never_increments :
    (∀ k, rp2040BootCountSeq k = 1) ∧
      (∀ (st : Retained) (n : Option (List Nat)) (env : BootEnv) (fuel : Nat),
        (espCycle st n env fuel).retained.bootCount = (st.bootCount + 1) % U16) := by
  constructor
  · intro k
    induction k with
    | zero => rfl
    | succ k ih =>
      show rp2040InitBootCount (rp2040BootCountSeq k) = 1
      rw [ih]
      rfl
  · intro st n env fuel
    by_cases hr : env.radioBeginResult = 0
    · rcases hjp : (joinPhase env st.streak n fuel).2.2 with _ | e | _ <;>
        simp [espCycle, hr, hjp]
    · simp [espCycle, hr]

/-! ### Claim C8: behaviour when the sleep call returns -/

/-- ESP8266 `gotoSleep` (first sketch copy lines 53-74): store `bootCount`
and the streak to RTC user memory, call `ESP.deepSleep(seconds * 1000UL *
1000UL)`; if that call returns, delay five minutes and `ESP.restart()`. -/
def esp8266GotoSleep (bootCount streak : Nat) (sleepOk : Bool)
    (seconds : Nat) : List Ev × SleepExit :=
  if sleepOk then
    ([.rtcWrite 0 bootCount, .rtcWrite 1 streak,
       .espDeepSleep (sleepMicros seconds)], .slept seconds)
  else
    ([.rtcWrite 0 bootCount, .rtcWrite 1 streak,
       .espDeepSleep (sleepMicros seconds), .failDelay (5 * 60 * 1000),
       .restart], .restarted seconds)

/-- Observable events of the RP2040 sketch. -/
inductive RpEv where
  /-- Store `watchdog_hw->scratch[1] = bootCount`. -/
  | scratchSave (v : Nat)
  /-- Call `rtc_set_datetime(&dt)`. -/
  | rtcSet
  /-- Short `delay(100)` before sleeping. -/
  | shortDelay (ms : Nat)
  /-- Call `pico_sleep(seconds)`. -/
  | picoSleepCall (sec : Nat)
  /-- a fresh-join `beginOTAA(..., true)` call and its result. -/
  | rpJoinCall (r : Int)
  /-- Call `store.putBytes("nonces", ...)`. -/
  | rpNonceWrite (b : List Nat)
  /-- Guard `delay(1000)` after a successful join. -/
  | rpGuardDelay (ms : Nat)
  /-- a long defensive delay (the RP2040 sketch has none). -/
  | rpDelay (ms : Nat)
  /-- Call `rp2040.restart()`. -/
  | rpRestart
  deriving DecidableEq, Repr

/-- Is the event one of the defensive actions claim C8 describes (a long
delay or a forced restart)? -/
def isRpDefensive : RpEv → Bool
  | .rpRestart => true
  | .rpDelay _ => true
  | _ => false

/-- RP2040 `gotoSleep` (lines 51-63): store `bootCount` in the watchdog
scratch register, set the RTC, wait 100 ms, call `pico_sleep(seconds)` —
and then fall off the end of the function: it contains no failure delay
and no restart. -/
def rp2040GotoSleep (bootCount : Nat) (seconds : Nat) : List RpEv :=
  [.scratchSave bootCount, .rtcSet, .shortDelay 100, .picoSleepCall seconds]

/-- RP2040 environment.  `picoSleepReturns` models whether `pico_sleep`
(whose code lives in `src/rp2040/pico_rtc_utils.h`, outside the sources at
hand) returns control to its caller; the sketch's own structure (the
explicit `rp2040.restart()` placed after the final `gotoSleep`, line 195,
and the comment that the RP2040 "is actually capable of resuming normal
operation after wake-up") shows that it can. -/
structure RpEnv where
  joinResult : Nat → Int
  nodeNonces : List Nat
  picoSleepReturns : Bool

/-- How the RP2040 join loop ended. -/
inductive RpLoopOut where
  | joined
  /-- Case where `pico_sleep` did not return (device reset externally). -/
  | sleepNoReturn
  | fuelOut
  deriving DecidableEq, Repr

/-- The RP2040 join loop (lines 118-157).  Identical to the ESP32 loop
except for `gotoSleep`: when `pico_sleep` returns, `gotoSleep` returns to
the loop, whose condition (the unchanged nonzero state) is tested again,
so the next fresh-join attempt happens in the same invocation — with no
defensive delay and no restart in between. -/
def rp2040JoinLoop (env : RpEnv) (bootCount : Nat) (streak : Nat)
    (attempt : Nat) : Nat → Nat × List RpEv × RpLoopOut
  | 0 => (streak, [], .fuelOut)
  | fuel + 1 =>
    let s := env.joinResult attempt
    if s < 0 then
      let d := sleepForSeconds streak
      let streak' := (streak + 1) % U16
      let g := rp2040GotoSleep bootCount d
      if env.picoSleepReturns then
        let r := rp2040JoinLoop env bootCount streak' (attempt + 1) fuel
        (r.1, (.rpJoinCall s :: g) ++ r.2.1, r.2.2)
      else
        (streak', .rpJoinCall s :: g, .sleepNoReturn)
    else
      let pre : List RpEv := [.rpJoinCall s, .rpNonceWrite env.nodeNonces,
        .rpGuardDelay 1000]
      if s = 0 then
        (0, pre, .joined)
      else
        let r := rp2040JoinLoop env bootCount 0 (attempt + 1) fuel
        (r.1, pre ++ r.2.1, r.2.2)

/-- RP2040 environment whose first join attempt fails and whose second
succeeds, with `pico_sleep` returning. -/
def rpEnvRetry : RpEnv :=
  ⟨fun k => if k = 0 then -1116 else 0, [7], true⟩

/-- Counterexample to claim C8 as stated: on the RP2040 (which the claim
cites), when the sleep call returns, the device takes no defensive action
— no five-minute delay, no restart — and control returns to the join loop,
which immediately makes another fresh-join call (trace index 5, right
after the `pico_sleep` call at index 4). -/
theorem c8_counterexample :
    (rp2040JoinLoop rpEnvRetry 1 0 0 3).2.2 = .joined ∧
      (rp2040JoinLoop rpEnvRetry 1 0 0 3).2.1.get? 4 =
        some (.picoSleepCall 60) ∧
      (rp2040JoinLoop rpEnvRetry 1 0 0 3).2.1.get? 5 =
        some (.rpJoinCall 0) ∧
      ((rp2040JoinLoop rpEnvRetry 1 0 0 3).2.1.all fun e =>
        !isRpDefensive e) = true :=
  ⟨by decide, by decide, by decide, by decide⟩

/-- The exits of the ESP32 join loop's failure branch are `gotoSleep`
exits. -/
theorem joinLoop_ended_exit (env : BootEnv) :
    ∀ (fuel : Nat) (st : JoinSt) (a : Nat) (e : SleepExit),
      (joinLoop env st a fuel).2.2 = .ended e →
      ∃ sec, e = (gotoSleepE env.sleepOk sec).2 := by
  intro fuel
  induction fuel with
  | zero =>
    intro st a e h
    simp [joinLoop] at h
  | succ f ih =>
    intro st a e h
    by_cases hlt : env.joinResult a < 0
    · rw [joinLoop_fail_eq env st a f hlt] at h
      simp at h
      exact ⟨sleepForSeconds st.streak, h.symm⟩
    · by_cases h0 : env.joinResult a = 0
      · rw [joinLoop_zero_eq env st a f hlt h0] at h
        simp at h
      · rw [joinLoop_pos_eq env st a f hlt h0] at h
        exact ih _ _ e h

/-- Claim C8 as amended: on the ESP32 and the ESP8266, whenever the
deep-sleep call returns, `gotoSleep` delays five minutes and forces a
restart, and the invocation ends there — with a failing deep sleep no
cycle ends in a `slept` exit.  The RP2040 variant behaves differently
(see the counterexample): its `gotoSleep` returns control to the cycle
with no defensive action. -/
theorem c8_amended :
    (∀ (ok : Bool) (sec : Nat), ok = false →
      gotoSleepE ok sec =
        ([.sleepTimer (sleepMicros sec), .failDelay (5 * 60 * 1000), .restart],
          .restarted sec)) ∧
    (∀ (bc sk : Nat) (ok : Bool) (sec : Nat), ok = false →
      esp8266GotoSleep bc sk ok sec =
        ([.rtcWrite 0 bc, .rtcWrite 1 sk, .espDeepSleep (sleepMicros sec),
          .failDelay (5 * 60 * 1000), .restart], .restarted sec)) ∧
    (∀ (st : Retained) (n : Option (List Nat)) (env : BootEnv) (fuel : Nat),
      env.sleepOk = false → ∀ sec,
      (espCycle st n env fuel).ending ≠ .joinFailEnd (.slept sec) ∧
        (espCycle st n env fuel).ending ≠ .uplinkEnd (.slept sec)) := by
  refine ⟨?_, ?_, ?_⟩
  · intro ok sec hok
    rw [hok]
    rfl
  · intro bc sk ok sec hok
    rw [hok]
    rfl
  · intro st n env fuel hok sec
    by_cases hr : env.radioBeginResult = 0
    · rcases espCycle_ending_cases st n env fuel hr with
        ⟨hu, _⟩ | ⟨e2, hu, hj⟩ | ⟨hu, _⟩
      · rw [hu]
        simp [gotoSleepE, hok]
      · rw [hu]
        have hphase : (joinPhase env st.streak n fuel).2.2 = .ended e2 := hj
        unfold joinPhase at hphase
        by_cases hres : env.beginOTAARestoreResult = 0
        · rw [if_pos hres] at hphase
          simp at hphase
        · rw [if_neg hres] at hphase
          obtain ⟨sec', he⟩ := joinLoop_ended_exit env fuel _ 0 e2 hphase
          rw [he]
          simp [gotoSleepE, hok]
      · rw [hu]
        simp
    · have hfat := (espCycle_fatal st n env fuel hr).1
      rw [hfat]
      simp

/-- Witness for the amended C8 at concrete inputs. -/
theorem c8_amended_witness :
    gotoSleepE false 75 =
        ([.sleepTimer (sleepMicros 75), .failDelay (5 * 60 * 1000), .restart],
          .restarted 75) ∧
      (espCycle ⟨1, 0, []⟩ none { envFail with sleepOk := false } 1).ending ≠
        .joinFailEnd (.slept 60) :=
  ⟨c8_amended.1 false 75 rfl,
    (c8_amended.2.2 ⟨1, 0, []⟩ none { envFail with sleepOk := false } 1 rfl 60).1⟩
